import Mathlib

/-!
Verification of the ai-slider backend (src/backend/main.py) against its
natural-language specification.

Shallow embedding conventions:
* A Python `str` is modelled as a Lean `String` when only concatenation is
  involved, and as a `List Char` (the sequence of code points) where the code
  indexes, slices or searches the text (`smart_truncate`).
* Python `rfind` returns `-1` when the needle is absent, and `-1` is a live
  value in the word-boundary branch of `smart_truncate` (it is compared with
  `max_chars - 200` and used to slice `text[:space_idx]`), so the rfind models
  return `Int` and slicing honours Python negative-index semantics.
* Whitespace is the ASCII whitespace set, matching both the regex class
  `[\s\n]` and `str.strip` / `str.rstrip` on the texts the claims concern.
* `time.time()` is modelled by a `Nat` number of seconds supplied by the
  caller; `uuid.uuid4()` by a caller-supplied fresh id; the provider CLI call
  by a function argument returning `Except HTTPError String`.
* The module-level mutable dict `sessions` is threaded explicitly: handlers
  take a `SessionStore` and return the updated store.
-/

/-- Configuration constant from main.py line 35. -/
def MAX_CONTEXT_CHARS : Nat := 50000

/-- Configuration constant from main.py line 36. -/
def MAX_QUESTION_CHARS : Nat := 2000

/-- Configuration constant from main.py line 37 (1 hour). -/
def SESSION_EXPIRY_SECONDS : Nat := 3600

/-- ASCII whitespace, the characters matched by the regex class used in
`smart_truncate` and stripped by `str.strip` and `str.rstrip`. -/
def isPyWS (c : Char) : Bool :=
  c == ' ' || c == '\t' || c == '\n' || c == '\r' ||
    c == Char.ofNat 11 || c == Char.ofNat 12

/-- Sentence-ending punctuation of the regex in main.py line 110. -/
def isSentencePunct (c : Char) : Bool :=
  c == '.' || c == '!' || c == '?'

/-- Index of the last element satisfying `p`, or `none`. -/
def lastIdxWhere (p : α → Bool) : List α → Option Nat
  | [] => none
  | a :: t =>
    match lastIdxWhere p t with
    | some i => some (i + 1)
    | none => if p a then some 0 else none

/-- Consecutive pairs of a character list, for two-character searches. -/
def charPairs (l : List Char) : List (Char × Char) := l.zip l.tail

/-- End position (index just past the two matched characters) of the last
match of the regex of main.py line 110, a sentence-ending punctuation mark
followed by a whitespace character.  The two characters of a match are drawn
from disjoint classes, so candidate matches can never overlap and the last
match found by a left-to-right non-overlapping scan is the last candidate. -/
def lastSentenceEnd (l : List Char) : Option Nat :=
  (lastIdxWhere (fun ab => isSentencePunct ab.1 && isPyWS ab.2) (charPairs l)).map
    (fun i => i + 2)

/-- Python `region.rfind(String.mk [a, b])`: highest start index of the
two-character needle, `-1` when absent. -/
def pyRfindPair (a b : Char) (l : List Char) : Int :=
  match lastIdxWhere (fun ab => ab.1 == a && ab.2 == b) (charPairs l) with
  | some i => (i : Int)
  | none => -1

/-- Python `l.rfind(c)` for a single character: highest index, `-1` if absent. -/
def pyRfindChar (c : Char) (l : List Char) : Int :=
  match lastIdxWhere (fun x => x == c) l with
  | some i => (i : Int)
  | none => -1

/-- Python `str.rstrip()` restricted to ASCII whitespace. -/
def pyRstrip (l : List Char) : List Char :=
  (l.reverse.dropWhile isPyWS).reverse

/-- Python `str.strip()` restricted to ASCII whitespace. -/
def pyStrip (l : List Char) : List Char :=
  pyRstrip (l.dropWhile isPyWS)

/-- `String` version of `pyStrip`, used where main.py calls `.strip()`. -/
def pyStripS (s : String) : String := String.mk (pyStrip s.data)

/-- Python `text[:i]` including negative-index semantics:
`text[:-k]` keeps all but the last `k` characters. -/
def pySliceTo (l : List Char) (i : Int) : List Char :=
  if 0 ≤ i then l.take i.toNat else l.take (l.length - (-i).toNat)

/-- The ellipsis marker appended by the word-cut and hard-cut branches. -/
def ELLIPSIS : List Char := ['.', '.', '.']

/-- main.py lines 93-137: truncate text at natural boundaries.
Branch order as in the source: identity below the cap; last sentence
boundary in the 500-character window before the cap; last paragraph break
(double newline) in the window; last single newline in the window; last
space in the whole prefix if within 200 characters of the cap, with
ellipsis; hard cut at the cap with ellipsis.  `search_start` is
`max(0, max_chars - 500)`, which truncated `Nat` subtraction gives directly. -/
def smart_truncate (text : List Char) (max_chars : Nat) : List Char :=
  if text.length ≤ max_chars then text
  else
    let search_start := max_chars - 500
    let search_region := (text.take max_chars).drop search_start
    match lastSentenceEnd search_region with
    | some e => pyRstrip (text.take (search_start + e))
    | none =>
      let para_idx := pyRfindPair '\n' '\n' search_region
      if para_idx ≠ -1 then pyRstrip (text.take (search_start + para_idx.toNat))
      else
        let newline_idx := pyRfindChar '\n' search_region
        if newline_idx ≠ -1 then
          pyRstrip (text.take (search_start + newline_idx.toNat))
        else
          let space_idx := pyRfindChar ' ' (text.take max_chars)
          if space_idx > (max_chars : Int) - 200 then
            pyRstrip (pySliceTo text space_idx) ++ ELLIPSIS
          else
            pyRstrip (text.take max_chars) ++ ELLIPSIS

/-- `smart_truncate` on Lean strings, for the handler-level definitions. -/
def smart_truncateS (s : String) (max_chars : Nat) : String :=
  String.mk (smart_truncate s.data max_chars)

/-- Role of a conversation turn; the pydantic model (main.py line 60)
validates `role` against the pattern user|assistant, so the validated
values form this two-element type. -/
inductive Role
  | user
  | assistant
deriving DecidableEq, Repr

/-- main.py lines 59-61: one conversation turn. -/
structure HistoryMessage where
  role : Role
  content : String
deriving DecidableEq, Repr

/-- main.py lines 64-70: body of POST /ask.  The pydantic length caps and
patterns are validation conditions, stated as hypotheses where a claim
needs them. -/
structure AskRequest where
  question : String
  context : String
  url : String
  title : String
  history : List HistoryMessage
  provider : String
deriving DecidableEq, Repr

/-- main.py lines 77-80: body of POST /session/create. -/
structure SessionCreateRequest where
  context : String
  url : String
  title : String
deriving DecidableEq, Repr

/-- main.py lines 87-90: body of POST /session/ask. -/
structure SessionAskRequest where
  session_id : String
  question : String
  provider : String
deriving DecidableEq, Repr

/-- One value of the `sessions` dict (main.py lines 363-369). -/
structure Session where
  context : String
  url : String
  title : String
  history : List HistoryMessage
  created_at : Nat
deriving DecidableEq, Repr

/-- The module-level `sessions` dict (main.py line 46), as a map from
session id to session. -/
def SessionStore : Type := String → Option Session

/-- A raised `HTTPException` (status_code, detail). -/
structure HTTPError where
  status_code : Nat
  detail : String
deriving DecidableEq, Repr

/-- The outcome of a provider adapter call (`handle_codex_request` or
`handle_claude_request`): the answer text, or a raised `HTTPException`.
The adapters are subprocess calls, modelled as a function argument from
the built user message and optional history to such an outcome. -/
def Provider : Type :=
  String → Option (List HistoryMessage) → Except HTTPError String

/-- main.py lines 140-148: remove sessions whose age strictly exceeds
`SESSION_EXPIRY_SECONDS`.  `now - created_at` on `Nat` agrees with the
Python float subtraction for the comparison involved, since a negative
difference is never greater than the window. -/
def cleanup_expired_sessions (store : SessionStore) (now : Nat) : SessionStore :=
  fun sid =>
    match store sid with
    | none => none
    | some s =>
      if now - s.created_at > SESSION_EXPIRY_SECONDS then none else some s

/-- main.py lines 178-189: build the user message with delimited untrusted
content.  The metadata header joins the nonempty lines of
`[url line, title line]` with a newline; the remainder is the literal
f-string: header, blank line, sentinel, context, sentinel, blank line,
question line. -/
def build_user_message (question context url title : String) : String :=
  let parts := [if url != "" then "Page URL: " ++ url else "",
                if title != "" then "Page Title: " ++ title else ""]
  let header := String.intercalate "\n" (parts.filter (fun p => p != ""))
  header ++ "\n\nBEGIN_UNTRUSTED_PAGE_TEXT\n" ++ context ++
    "\nEND_UNTRUSTED_PAGE_TEXT\n\nUser Question: " ++ question

/-- The metadata header built by `build_user_message` (main.py lines 180-181),
named so theorems can isolate the sentinel-wrapped remainder. -/
def metadataHeader (url title : String) : String :=
  String.intercalate "\n"
    ([if url != "" then "Page URL: " ++ url else "",
      if title != "" then "Page Title: " ++ title else ""].filter
      (fun p => p != ""))

/-- Rendering of one history turn in `build_cli_prompt`
(main.py lines 212-214). -/
def renderTurn (m : HistoryMessage) : String :=
  (if m.role = Role.user then "User" else "Assistant") ++ ": " ++ m.content

/-- main.py lines 202-218: flatten system prompt, optional history and the
current user message into one CLI prompt.  `if history:` in Python is true
exactly when the argument is `some` of a nonempty list. -/
def build_cli_prompt (system_prompt user_message : String)
    (history : Option (List HistoryMessage)) : String :=
  let base := ["SYSTEM PROMPT:\n" ++ system_prompt]
  let sections :=
    match history with
    | some (m :: ms) =>
      base ++ ["CONVERSATION HISTORY:\n" ++
        String.intercalate "\n" ((m :: ms).map renderTurn)]
    | _ => base
  String.intercalate "\n\n" (sections ++ ["CURRENT USER MESSAGE:\n" ++ user_message])

/-- main.py lines 323-349: the POST /ask handler after framework
validation, with the selected provider adapter abstracted as `provider`. -/
def ask (req : AskRequest) (provider : Provider) : Except HTTPError String :=
  if pyStripS req.question = "" then
    Except.error ⟨400, "Question cannot be empty"⟩
  else if pyStripS req.context = "" then
    Except.error ⟨400, "Context cannot be empty"⟩
  else
    let context := smart_truncateS req.context MAX_CONTEXT_CHARS
    let user_message :=
      build_user_message (pyStripS req.question) context req.url req.title
    let history := if req.history = [] then none else some req.history
    provider user_message history

/-- main.py lines 352-371: the POST /session/create handler.  `now` models
`time.time()` and `sid` the generated `uuid.uuid4()` string; the updated
store is returned alongside the response. -/
def create_session (store : SessionStore) (now : Nat)
    (req : SessionCreateRequest) (sid : String) :
    Except HTTPError String × SessionStore :=
  let store1 := cleanup_expired_sessions store now
  if pyStripS req.context = "" then
    (Except.error ⟨400, "Context cannot be empty"⟩, store1)
  else
    let context := smart_truncateS req.context MAX_CONTEXT_CHARS
    (Except.ok sid,
      fun k => if k = sid then some ⟨context, req.url, req.title, [], now⟩
               else store1 k)

/-- main.py lines 374-405: the POST /session/ask handler.  Order as in the
source: expiry sweep, session lookup (404), question validation (400),
message build from the stored context, provider call, and only after a
successful answer the append of the user turn and the assistant turn. -/
def session_ask (store : SessionStore) (now : Nat) (req : SessionAskRequest)
    (provider : Provider) : Except HTTPError String × SessionStore :=
  let store1 := cleanup_expired_sessions store now
  match store1 req.session_id with
  | none => (Except.error ⟨404, "Session not found or expired"⟩, store1)
  | some s =>
    if pyStripS req.question = "" then
      (Except.error ⟨400, "Question cannot be empty"⟩, store1)
    else
      let user_message :=
        build_user_message (pyStripS req.question) s.context s.url s.title
      let history := if s.history = [] then none else some s.history
      match provider user_message history with
      | Except.error e => (Except.error e, store1)
      | Except.ok answer =>
        let s2 := { s with history := s.history ++
          [⟨Role.user, pyStripS req.question⟩, ⟨Role.assistant, answer⟩] }
        (Except.ok answer,
          fun k => if k = req.session_id then some s2 else store1 k)

/-! Helper lemmas about the truncator -/

theorem length_dropWhile_le (p : Char → Bool) (l : List Char) :
    (l.dropWhile p).length ≤ l.length := by
  induction l with
  | nil => simp [List.dropWhile]
  | cons a t ih =>
    by_cases h : p a
    · simp only [List.dropWhile_cons_of_pos h, List.length_cons]
      omega
    · simp [List.dropWhile_cons_of_neg h]

theorem pyRstrip_length_le (l : List Char) : (pyRstrip l).length ≤ l.length := by
  unfold pyRstrip
  rw [List.length_reverse]
  have := length_dropWhile_le isPyWS l.reverse
  rwa [List.length_reverse] at this

theorem pyRstrip_take_length_le (l : List Char) (n : Nat) :
    (pyRstrip (l.take n)).length ≤ n := by
  refine le_trans (pyRstrip_length_le _) ?_
  rw [List.length_take]
  omega

theorem lastIdxWhere_lt_length (p : α → Bool) :
    ∀ (l : List α) (i : Nat), lastIdxWhere p l = some i → i < l.length := by
  intro l
  induction l with
  | nil => intro i h; simp [lastIdxWhere] at h
  | cons a t ih =>
    intro i h
    simp only [lastIdxWhere] at h
    cases ht : lastIdxWhere p t with
    | some j =>
      rw [ht] at h
      have := ih j ht
      simp only [Option.some.injEq] at h
      simp only [List.length_cons]
      omega
    | none =>
      rw [ht] at h
      by_cases hp : p a
      · simp only [hp, if_true, Option.some.injEq] at h
        simp only [List.length_cons]
        omega
      · simp [hp] at h

theorem lastSentenceEnd_le (l : List Char) (e : Nat)
    (h : lastSentenceEnd l = some e) : e ≤ l.length := by
  unfold lastSentenceEnd at h
  cases hi : lastIdxWhere (fun ab => isSentencePunct ab.1 && isPyWS ab.2) (charPairs l) with
  | none => rw [hi] at h; simp at h
  | some i =>
    rw [hi] at h
    simp only [Option.map_some', Option.some.injEq] at h
    have hlt := lastIdxWhere_lt_length _ _ _ hi
    unfold charPairs at hlt
    rw [List.length_zip, List.length_tail] at hlt
    have : i < l.length - 1 := lt_of_lt_of_le hlt (min_le_right _ _)
    omega

theorem pyRfindPair_toNat_lt (a b : Char) (l : List Char)
    (h : pyRfindPair a b l ≠ -1) : (pyRfindPair a b l).toNat < l.length := by
  unfold pyRfindPair at h ⊢
  cases hi : lastIdxWhere (fun ab => ab.1 == a && ab.2 == b) (charPairs l) with
  | none => rw [hi] at h; simp at h
  | some i =>
    have hlt := lastIdxWhere_lt_length _ _ _ hi
    unfold charPairs at hlt
    rw [List.length_zip, List.length_tail] at hlt
    have hlt2 : i < l.length - 1 := lt_of_lt_of_le hlt (min_le_right _ _)
    show ((i : Int)).toNat < l.length
    simp only [Int.toNat_ofNat]
    omega

theorem pyRfindChar_toNat_lt (c : Char) (l : List Char)
    (h : pyRfindChar c l ≠ -1) : (pyRfindChar c l).toNat < l.length := by
  unfold pyRfindChar at h ⊢
  cases hi : lastIdxWhere (fun x => x == c) l with
  | none => rw [hi] at h; simp at h
  | some i =>
    have hlt := lastIdxWhere_lt_length _ _ _ hi
    show ((i : Int)).toNat < l.length
    simp only [Int.toNat_ofNat]
    omega

theorem pyRfindChar_nonneg_of_ne (c : Char) (l : List Char)
    (h : pyRfindChar c l ≠ -1) : 0 ≤ pyRfindChar c l := by
  unfold pyRfindChar at h ⊢
  cases hi : lastIdxWhere (fun x => x == c) l with
  | none => rw [hi] at h; simp at h
  | some i => exact Int.ofNat_nonneg i

/-- Identity below the cap: the first branch of `smart_truncate`.  Shared by
the truncation-identity claim and the boundary-identity claim. -/
theorem smart_truncate_eq_of_le (text : List Char) (max_chars : Nat)
    (h : text.length ≤ max_chars) : smart_truncate text max_chars = text := by
  unfold smart_truncate
  rw [if_pos h]

theorem smart_truncateS_eq_of_le (s : String) (max_chars : Nat)
    (h : s.length ≤ max_chars) : smart_truncateS s max_chars = s := by
  unfold smart_truncateS
  rw [smart_truncate_eq_of_le s.data max_chars h]

theorem smart_truncate_length_le (text : List Char) (max_chars : Nat)
    (hcap : 199 ≤ max_chars) :
    (smart_truncate text max_chars).length ≤ max_chars + 3 := by
  by_cases h1 : text.length ≤ max_chars
  · rw [smart_truncate_eq_of_le text max_chars h1]; omega
  · have hlen : max_chars < text.length := not_le.mp h1
    unfold smart_truncate
    rw [if_neg h1]
    simp only []
    split
    · next e heq =>
      have he := lastSentenceEnd_le _ _ heq
      rw [List.length_drop, List.length_take, Nat.min_eq_left (le_of_lt hlen)] at he
      have hr := pyRstrip_take_length_le text (max_chars - 500 + e)
      omega
    · next heq =>
      split
      · next hpara =>
        have hlt := pyRfindPair_toNat_lt _ _ _ hpara
        rw [List.length_drop, List.length_take, Nat.min_eq_left (le_of_lt hlen)] at hlt
        have hr := pyRstrip_take_length_le text
          (max_chars - 500 + (pyRfindPair '\n' '\n' ((text.take max_chars).drop (max_chars - 500))).toNat)
        omega
      · split
        · next hnl =>
          have hlt := pyRfindChar_toNat_lt _ _ hnl
          rw [List.length_drop, List.length_take, Nat.min_eq_left (le_of_lt hlen)] at hlt
          have hr := pyRstrip_take_length_le text
            (max_chars - 500 + (pyRfindChar '\n' ((text.take max_chars).drop (max_chars - 500))).toNat)
          omega
        · split
          · next hword =>
            by_cases hsp : pyRfindChar ' ' (text.take max_chars) = -1
            · rw [hsp] at hword
              have : (199 : Int) ≤ (max_chars : Int) := by exact_mod_cast hcap
              omega
            · have hnn := pyRfindChar_nonneg_of_ne _ _ hsp
              have hlt := pyRfindChar_toNat_lt _ _ hsp
              rw [List.length_take, Nat.min_eq_left (le_of_lt hlen)] at hlt
              rw [List.length_append]
              have h3 : ELLIPSIS.length = 3 := rfl
              unfold pySliceTo
              rw [if_pos hnn]
              have hr := pyRstrip_take_length_le text (pyRfindChar ' ' (text.take max_chars)).toNat
              omega
          · rw [List.length_append]
            have h3 : ELLIPSIS.length = 3 := rfl
            have hr := pyRstrip_take_length_le text max_chars
            omega

/-! Claim theorems about truncation -/

/-- C4: for every text and every cap, if the length of the text is at most
the cap then `smart_truncate` returns the text unchanged — truncation is the
identity below the cap. -/
theorem c4_truncation_identity (text : List Char) (max_chars : Nat)
    (h : text.length ≤ max_chars) : smart_truncate text max_chars = text :=
  smart_truncate_eq_of_le text max_chars h

/-- Witness for C4 at a concrete input. -/
theorem c4_truncation_identity_witness :
    (['h', 'i'] : List Char).length ≤ 5 ∧ smart_truncate ['h', 'i'] 5 = ['h', 'i'] :=
  ⟨by decide, c4_truncation_identity ['h', 'i'] 5 (by decide)⟩

/-- C5, counterexample to the claim as stated: at text `"aaaaa"` and cap 3
the word-boundary branch accepts the failed rfind result `-1` (because
`-1 > 3 - 200` holds) and slices `text[:-1]`, producing `"aaaa..."` of
length 7, which exceeds `cap + len("...") = 6`.  So the bound does not hold
for every cap. -/
theorem c5_truncation_bound_cex :
    ¬ (smart_truncate "aaaaa".data 3).length ≤ 3 + ELLIPSIS.length := by
  decide

/-- C5 (amended): for every text and every cap of at least 199 — in
particular for the only cap the service uses, `MAX_CONTEXT_CHARS = 50000` —
the output of `smart_truncate` never exceeds the cap by more than the length
of the ellipsis marker, across all five branches of the algorithm.  (Below
cap 199 the guard `space_idx > max_chars - 200` can accept the failed rfind
value `-1`, whose Python slice `text[:-1]` breaks the bound.) -/
theorem c5_truncation_bound_amended (text : List Char) (max_chars : Nat)
    (hcap : 199 ≤ max_chars) :
    (smart_truncate text max_chars).length ≤ max_chars + ELLIPSIS.length :=
  smart_truncate_length_le text max_chars hcap

/-- Witness for the amended C5 at a concrete input that takes the hard-cut
branch. -/
theorem c5_truncation_bound_witness :
    199 ≤ 199 ∧
      (smart_truncate (List.replicate 300 'a') 199).length ≤ 199 + ELLIPSIS.length :=
  ⟨by decide, c5_truncation_bound_amended (List.replicate 300 'a') 199 (by decide)⟩

/-- C6, counterexample to the claim as stated: with the text
`"Sentence one. Sentence two. Sentence three."` and cap 25 — which falls
inside the word "two" — the search region `text[0:25]` contains only the
sentence boundary after "one." (the boundary after "two." sits at indices
26-27, beyond the cap), so the result is NOT the text through
"Sentence two.". -/
theorem c6_boundary_preference_cex :
    smart_truncate "Sentence one. Sentence two. Sentence three.".data 25 ≠
      "Sentence one. Sentence two.".data := by
  decide

/-- C6 (amended): with the text
`"Sentence one. Sentence two. Sentence three."`, a cap that falls inside
"two" (cap 25) returns exactly the text through "Sentence one." with no
ellipsis appended — the sentence boundary is preferred over a word boundary
or hard cut; the text through "Sentence two." is returned when the cap falls
inside "Sentence three." (cap 35), since the boundary after "two." must lie
below the cap to be found. -/
theorem c6_boundary_preference_amended :
    smart_truncate "Sentence one. Sentence two. Sentence three.".data 25 =
      "Sentence one.".data ∧
    smart_truncate "Sentence one. Sentence two. Sentence three.".data 35 =
      "Sentence one. Sentence two.".data :=
  ⟨by decide, by decide⟩

/-! Claim theorems about the prompt builders -/

theorem append_left_ne_empty {a : String} (b : String) (h : a.data ≠ []) :
    a ++ b ≠ "" := by
  intro hc
  have hd : (a ++ b).data = ("" : String).data := by rw [hc]
  rw [String.data_append] at hd
  simp at hd
  exact h hd.1

/-- The header filter of `build_user_message` keeps exactly the metadata
lines whose source value is nonempty, with no empty-string placeholder
surviving into the joined header. -/
theorem filter_parts_eq (url title : String) :
    ([if url != "" then "Page URL: " ++ url else "",
      if title != "" then "Page Title: " ++ title else ""].filter
        (fun p => p != "")) =
      (if url = "" then [] else ["Page URL: " ++ url]) ++
        (if title = "" then [] else ["Page Title: " ++ title]) := by
  have b1 : ("Page URL: " ++ url != "") = true :=
    bne_iff_ne.mpr (append_left_ne_empty url (by decide))
  have b2 : ("Page Title: " ++ title != "") = true :=
    bne_iff_ne.mpr (append_left_ne_empty title (by decide))
  by_cases hu : url = "" <;> by_cases ht : title = "" <;>
    simp [hu, ht, List.filter, bne_iff_ne, b1, b2]

/-- C1: for every question, url, title and every context string — including
contexts containing the literal sentinel substrings or instruction-like
text, since the statement quantifies over all contexts — the character
sequence of the built user message is exactly: the metadata header, the
literal text ending in the one builder-emitted `BEGIN_UNTRUSTED_PAGE_TEXT`
marker and a newline, the entire original context verbatim and unmodified,
then a newline and the one builder-emitted `END_UNTRUSTED_PAGE_TEXT` marker,
then the question line.  The builder is plain concatenation: no
content-based early termination or alteration of the context is possible. -/
theorem c1_sentinel_integrity (question context url title : String) :
    (build_user_message question context url title).data =
      (metadataHeader url title).data ++ "\n\nBEGIN_UNTRUSTED_PAGE_TEXT\n".data ++
        context.data ++ "\nEND_UNTRUSTED_PAGE_TEXT\n\nUser Question: ".data ++
        question.data := by
  simp [build_user_message, metadataHeader, String.data_append]

/-- C7, counterexample to the claim as stated: with both url and title
empty the message DOES begin with leftover blank lines — the unconditional
`\n\n` separator between the (empty) header and the sentinel block — so the
first two lines before `BEGIN_UNTRUSTED_PAGE_TEXT` are blank. -/
theorem c7_metadata_lines_cex :
    build_user_message "q" "c" "" "" =
      "\n\nBEGIN_UNTRUSTED_PAGE_TEXT\nc\nEND_UNTRUSTED_PAGE_TEXT\n\nUser Question: q" := by
  decide

/-- C7 (amended): the message includes a URL metadata line exactly when url
is nonempty and a Title line exactly when title is nonempty, and an omitted
line leaves no blank artifact inside the metadata header (the surviving
lines are joined directly with single newlines); however the separator
between header and sentinel block is emitted unconditionally, so when both
url and title are empty the message begins with two newline characters
(two blank lines) before the `BEGIN_UNTRUSTED_PAGE_TEXT` sentinel. -/
theorem c7_metadata_lines_amended (question context url title : String) :
    build_user_message question context url title =
      String.intercalate "\n"
          ((if url = "" then [] else ["Page URL: " ++ url]) ++
            (if title = "" then [] else ["Page Title: " ++ title])) ++
        "\n\nBEGIN_UNTRUSTED_PAGE_TEXT\n" ++ context ++
        "\nEND_UNTRUSTED_PAGE_TEXT\n\nUser Question: " ++ question := by
  simp only [build_user_message]
  rw [filter_parts_eq]

/-- C8: `build_cli_prompt` produces, in order, the system-prompt section,
then — only when the history is a nonempty list — the conversation-history
section with each turn rendered on its own line by `renderTurn`
(`"User: <content>"` or `"Assistant: <content>"`, chronological order), then
the current-user-message section; consecutive sections are separated by one
blank line (`"\n\n"`), and with an empty (or absent) history the history
section and its header are absent entirely. -/
theorem c8_cli_prompt_layout (system_prompt user_message : String)
    (history : Option (List HistoryMessage)) :
    build_cli_prompt system_prompt user_message history =
      match history with
      | some (m :: ms) =>
        "SYSTEM PROMPT:\n" ++ system_prompt ++ "\n\n" ++
          "CONVERSATION HISTORY:\n" ++
          String.intercalate "\n" ((m :: ms).map renderTurn) ++
          "\n\n" ++ "CURRENT USER MESSAGE:\n" ++ user_message
      | _ =>
        "SYSTEM PROMPT:\n" ++ system_prompt ++ "\n\n" ++
          "CURRENT USER MESSAGE:\n" ++ user_message := by
  cases history with
  | none =>
    simp only [build_cli_prompt, String.intercalate, String.intercalate.go,
      List.cons_append, List.nil_append, String.append_assoc]
  | some l =>
    cases l with
    | nil =>
      simp only [build_cli_prompt, String.intercalate, String.intercalate.go,
        List.cons_append, List.nil_append, String.append_assoc]
    | cons m ms =>
      simp only [build_cli_prompt, String.intercalate, String.intercalate.go,
        List.cons_append, List.nil_append, String.append_assoc]

/-! Claim theorems about the session store and dispatcher -/

/-- C2: for a session ask whose session is found (present and unexpired at
sweep time), the stored session after the ask is: on a successful ask (an
answer is returned to the caller) the original session with exactly the
user turn (the trimmed question) and then the assistant turn (the answer)
appended — history length grows by exactly 2, in that order; on any failed
ask (empty question or provider error) exactly the original session —
history unchanged. -/
theorem c2_history_append_atomicity (store : SessionStore) (now : Nat)
    (req : SessionAskRequest) (provider : Provider) (s : Session)
    (hfound : cleanup_expired_sessions store now req.session_id = some s) :
    (session_ask store now req provider).2 req.session_id =
      some (match (session_ask store now req provider).1 with
        | Except.ok ans =>
          { s with history := s.history ++
              [⟨Role.user, pyStripS req.question⟩, ⟨Role.assistant, ans⟩] }
        | Except.error _ => s) := by
  simp only [session_ask, hfound]
  split
  · simp [hfound]
  · split
    · simp [hfound]
    · simp

/-- Witness for C2 at a concrete store, request and provider. -/
theorem c2_history_append_atomicity_witness :
    cleanup_expired_sessions
        (fun k => if k = "s1" then some ⟨"ctx", "", "", [], 5⟩ else none) 10 "s1" =
      some ⟨"ctx", "", "", [], 5⟩ ∧
    (session_ask (fun k => if k = "s1" then some ⟨"ctx", "", "", [], 5⟩ else none)
          10 ⟨"s1", "What?", "codex"⟩ (fun _ _ => Except.ok "Blue.")).2 "s1" =
      some (match (session_ask
          (fun k => if k = "s1" then some ⟨"ctx", "", "", [], 5⟩ else none)
          10 ⟨"s1", "What?", "codex"⟩ (fun _ _ => Except.ok "Blue.")).1 with
        | Except.ok ans =>
          { (⟨"ctx", "", "", [], 5⟩ : Session) with
              history := (⟨"ctx", "", "", [], 5⟩ : Session).history ++
                [⟨Role.user, pyStripS (⟨"s1", "What?", "codex"⟩ : SessionAskRequest).question⟩,
                  ⟨Role.assistant, ans⟩] }
        | Except.error _ => ⟨"ctx", "", "", [], 5⟩) :=
  ⟨by decide,
    c2_history_append_atomicity
      (fun k => if k = "s1" then some ⟨"ctx", "", "", [], 5⟩ else none)
      10 ⟨"s1", "What?", "codex"⟩ (fun _ _ => Except.ok "Blue.")
      ⟨"ctx", "", "", [], 5⟩ (by decide)⟩

/-- C3: a session created at time T (window 3600 s) is found by a session
ask at T + 3599 — with a nonblank question and a successful provider the
ask succeeds — and a session ask at T + 3601 fails with the 404 not-found
error, because the ask first sweeps out every entry whose age exceeds the
window. -/
theorem c3_session_expiry (store : SessionStore) (sid : String) (s : Session)
    (T : Nat) (req : SessionAskRequest) (provider : Provider) (a : String)
    (h1 : store sid = some s) (h2 : s.created_at = T)
    (h3 : req.session_id = sid) (h4 : pyStripS req.question ≠ "") :
    (session_ask store (T + 3599) req (fun _ _ => Except.ok a)).1 = Except.ok a ∧
      (session_ask store (T + 3601) req provider).1 =
        Except.error ⟨404, "Session not found or expired"⟩ := by
  have hc1 : cleanup_expired_sessions store (T + 3599) req.session_id = some s := by
    unfold cleanup_expired_sessions
    simp only [h3, h1]
    rw [h2]
    rw [if_neg (by simp only [SESSION_EXPIRY_SECONDS]; omega)]
  have hc2 : cleanup_expired_sessions store (T + 3601) req.session_id = none := by
    unfold cleanup_expired_sessions
    simp only [h3, h1]
    rw [h2]
    rw [if_pos (by simp only [SESSION_EXPIRY_SECONDS]; omega)]
  constructor
  · simp only [session_ask, hc1]
    rw [if_neg h4]
  · simp only [session_ask, hc2]

/-- Witness for C3 at a concrete store and request. -/
theorem c3_session_expiry_witness :
    (fun k => if k = "s1" then some (⟨"ctx", "", "", [], 100⟩ : Session) else none) "s1" =
        some ⟨"ctx", "", "", [], 100⟩ ∧
      (⟨"ctx", "", "", [], 100⟩ : Session).created_at = 100 ∧
      (⟨"s1", "Q", "codex"⟩ : SessionAskRequest).session_id = "s1" ∧
      pyStripS (⟨"s1", "Q", "codex"⟩ : SessionAskRequest).question ≠ "" ∧
      ((session_ask (fun k => if k = "s1" then some ⟨"ctx", "", "", [], 100⟩ else none)
            (100 + 3599) ⟨"s1", "Q", "codex"⟩ (fun _ _ => Except.ok "A")).1 =
          Except.ok "A" ∧
        (session_ask (fun k => if k = "s1" then some ⟨"ctx", "", "", [], 100⟩ else none)
            (100 + 3601) ⟨"s1", "Q", "codex"⟩ (fun _ _ => Except.ok "A")).1 =
          Except.error ⟨404, "Session not found or expired"⟩) :=
  ⟨by decide, by decide, by decide, by decide,
    c3_session_expiry
      (fun k => if k = "s1" then some ⟨"ctx", "", "", [], 100⟩ else none)
      "s1" ⟨"ctx", "", "", [], 100⟩ 100 ⟨"s1", "Q", "codex"⟩
      (fun _ _ => Except.ok "A") "A"
      (by decide) (by decide) (by decide) (by decide)⟩

/-- C10: the expiry sweep removes a session only when its age strictly
exceeds the window, so a session whose age is exactly 3600 seconds is kept
by the sweep and a session ask at that instant still finds it and succeeds. -/
theorem c10_exact_window_retained (store : SessionStore) (sid : String)
    (s : Session) (T : Nat) (req : SessionAskRequest) (a : String)
    (h1 : store sid = some s) (h2 : s.created_at = T)
    (h3 : req.session_id = sid) (h4 : pyStripS req.question ≠ "") :
    cleanup_expired_sessions store (T + 3600) sid = some s ∧
      (session_ask store (T + 3600) req (fun _ _ => Except.ok a)).1 = Except.ok a := by
  have hc : cleanup_expired_sessions store (T + 3600) sid = some s := by
    unfold cleanup_expired_sessions
    simp only [h1]
    rw [h2]
    rw [if_neg (by simp only [SESSION_EXPIRY_SECONDS]; omega)]
  refine ⟨hc, ?_⟩
  have hc2 : cleanup_expired_sessions store (T + 3600) req.session_id = some s := by
    rw [h3]; exact hc
  simp only [session_ask, hc2]
  rw [if_neg h4]

/-- Witness for C10 at a concrete store and request. -/
theorem c10_exact_window_retained_witness :
    (fun k => if k = "s1" then some (⟨"ctx", "", "", [], 7⟩ : Session) else none) "s1" =
        some ⟨"ctx", "", "", [], 7⟩ ∧
      (⟨"ctx", "", "", [], 7⟩ : Session).created_at = 7 ∧
      (⟨"s1", "Q2", "claude"⟩ : SessionAskRequest).session_id = "s1" ∧
      pyStripS (⟨"s1", "Q2", "claude"⟩ : SessionAskRequest).question ≠ "" ∧
      (cleanup_expired_sessions
            (fun k => if k = "s1" then some ⟨"ctx", "", "", [], 7⟩ else none)
            (7 + 3600) "s1" = some ⟨"ctx", "", "", [], 7⟩ ∧
        (session_ask (fun k => if k = "s1" then some ⟨"ctx", "", "", [], 7⟩ else none)
            (7 + 3600) ⟨"s1", "Q2", "claude"⟩ (fun _ _ => Except.ok "B")).1 =
          Except.ok "B") :=
  ⟨by decide, by decide, by decide, by decide,
    c10_exact_window_retained
      (fun k => if k = "s1" then some ⟨"ctx", "", "", [], 7⟩ else none)
      "s1" ⟨"ctx", "", "", [], 7⟩ 7 ⟨"s1", "Q2", "claude"⟩ "B"
      (by decide) (by decide) (by decide) (by decide)⟩

/-- C9 (implicit): request validation caps context at
`MAX_CONTEXT_CHARS = 50000` characters, the exact cap passed to
`smart_truncate`, so on every accepted request the truncation step is the
identity: `/ask` forwards to the provider a message wrapping the submitted
context verbatim, and `/session/create` stores the submitted context
verbatim — the ellipsis and word-cut branches are unreachable at the public
interface. -/
theorem c9_boundary_truncation_identity
    (areq : AskRequest) (provider : Provider)
    (sreq : SessionCreateRequest) (store : SessionStore) (now : Nat) (sid : String)
    (hqa : pyStripS areq.question ≠ "") (hca : pyStripS areq.context ≠ "")
    (hla : areq.context.length ≤ MAX_CONTEXT_CHARS)
    (hsc : pyStripS sreq.context ≠ "")
    (hls : sreq.context.length ≤ MAX_CONTEXT_CHARS) :
    ask areq provider =
      provider
        (build_user_message (pyStripS areq.question) areq.context areq.url areq.title)
        (if areq.history = [] then none else some areq.history) ∧
      (create_session store now sreq sid).2 sid =
        some ⟨sreq.context, sreq.url, sreq.title, [], now⟩ := by
  constructor
  · unfold ask
    rw [if_neg hqa, if_neg hca, smart_truncateS_eq_of_le _ _ hla]
  · unfold create_session
    rw [if_neg hsc, smart_truncateS_eq_of_le _ _ hls]
    simp

/-- Witness for C9 at a concrete request pair. -/
theorem c9_boundary_truncation_identity_witness :
    pyStripS (⟨"Q?", "page text", "", "", [], "codex"⟩ : AskRequest).question ≠ "" ∧
      pyStripS (⟨"Q?", "page text", "", "", [], "codex"⟩ : AskRequest).context ≠ "" ∧
      (⟨"Q?", "page text", "", "", [], "codex"⟩ : AskRequest).context.length ≤
        MAX_CONTEXT_CHARS ∧
      pyStripS (⟨"ctx2", "u", "t"⟩ : SessionCreateRequest).context ≠ "" ∧
      (⟨"ctx2", "u", "t"⟩ : SessionCreateRequest).context.length ≤ MAX_CONTEXT_CHARS ∧
      (ask (⟨"Q?", "page text", "", "", [], "codex"⟩ : AskRequest)
          (fun _ _ => Except.ok "A") =
        (fun (_ : String) (_ : Option (List HistoryMessage)) => Except.ok "A")
          (build_user_message
            (pyStripS (⟨"Q?", "page text", "", "", [], "codex"⟩ : AskRequest).question)
            (⟨"Q?", "page text", "", "", [], "codex"⟩ : AskRequest).context
            (⟨"Q?", "page text", "", "", [], "codex"⟩ : AskRequest).url
            (⟨"Q?", "page text", "", "", [], "codex"⟩ : AskRequest).title)
          (if (⟨"Q?", "page text", "", "", [], "codex"⟩ : AskRequest).history = []
            then none
            else some (⟨"Q?", "page text", "", "", [], "codex"⟩ : AskRequest).history) ∧
        (create_session (fun _ => none) 3 (⟨"ctx2", "u", "t"⟩ : SessionCreateRequest)
            "id1").2 "id1" =
          some ⟨(⟨"ctx2", "u", "t"⟩ : SessionCreateRequest).context,
            (⟨"ctx2", "u", "t"⟩ : SessionCreateRequest).url,
            (⟨"ctx2", "u", "t"⟩ : SessionCreateRequest).title, [], 3⟩) :=
  ⟨by decide, by decide, by decide, by decide, by decide,
    c9_boundary_truncation_identity
      ⟨"Q?", "page text", "", "", [], "codex"⟩ (fun _ _ => Except.ok "A")
      ⟨"ctx2", "u", "t"⟩ (fun _ => none) 3 "id1"
      (by decide) (by decide) (by decide) (by decide) (by decide)⟩
